import Mathlib

/-! A shallow embedding of the core of the `giaa` repository — the rule
expression parser and evaluator (`parser` crate), the rule compiler
(`rule_expr.rs`), the actuation engine (`actuator.rs`), the artifact
identifier (`identifier.rs`) and the scanner calibration/navigation loops
(`scanner.rs`) — together with theorems settling the specification claims.

Modelling conventions, used throughout:

* `rust_decimal::Decimal` is a 96-bit scaled integer (a mantissa and a
  fractional-digit scale); it is modelled by `Dec` below, an unbounded
  scaled integer.  The 96-bit overflow behaviour is not modelled; no
  value appearing below comes near 96 bits.  Comparison operators on
  `Decimal` compare values (rescaling as needed), modelled by
  `Dec.eqv`/`Dec.lt`/`Dec.le`.  `Decimal::round_dp` uses the
  `MidpointNearestEven` strategy, modelled by `Dec.roundDp`.  Division
  carries the quotient to at most 28 fractional digits.
* `f32`/`f64` values (number literals go through `str::parse::<f64>` and
  `Decimal::from_f64`, variable bindings through `Decimal::from_f32`) are
  modelled by `Dec` values holding the written digits; for the short
  decimal literals appearing in the claims this round trip is exact.
* `HashMap<String, T>` is modelled as `String → Option T`, with `insert`
  as pointwise function update, so that later inserts override earlier
  ones exactly as in the source.
* Window/OCR/screenshot effects are modelled by explicit environment
  records supplying the observed values; emitted clicks are collected in
  lists; `thread::sleep` has no observable effect and is dropped.
-/

/-- Model of `rust_decimal::Decimal`: the value `mantissa / 10 ^ scale`. -/
structure Dec where
  mantissa : ℤ
  scale : ℕ
  deriving DecidableEq

/-- Decimal addition: rescale to the larger scale and add mantissas. -/
def Dec.add (a b : Dec) : Dec :=
  let s := max a.scale b.scale
  ⟨a.mantissa * 10 ^ (s - a.scale) + b.mantissa * 10 ^ (s - b.scale), s⟩

/-- Decimal subtraction. -/
def Dec.sub (a b : Dec) : Dec :=
  let s := max a.scale b.scale
  ⟨a.mantissa * 10 ^ (s - a.scale) - b.mantissa * 10 ^ (s - b.scale), s⟩

/-- Decimal multiplication. -/
def Dec.mul (a b : Dec) : Dec :=
  ⟨a.mantissa * b.mantissa, a.scale + b.scale⟩

/-- Value equality of two decimals (`Decimal`'s `PartialEq`: values are
compared after rescaling, so `10.0 = 10`). -/
def Dec.eqv (a b : Dec) : Bool :=
  decide (a.mantissa * (10 : ℤ) ^ b.scale = b.mantissa * (10 : ℤ) ^ a.scale)

/-- Value order of two decimals (`Decimal`'s `PartialOrd`). -/
def Dec.lt (a b : Dec) : Bool :=
  decide (a.mantissa * (10 : ℤ) ^ b.scale < b.mantissa * (10 : ℤ) ^ a.scale)

/-- Value order of two decimals, non-strict. -/
def Dec.le (a b : Dec) : Bool :=
  decide (a.mantissa * (10 : ℤ) ^ b.scale ≤ b.mantissa * (10 : ℤ) ^ a.scale)

/-- Rounded division of a mantissa by `10 ^ d` with ties to even
(`rust_decimal`'s default `RoundingStrategy::MidpointNearestEven`):
`Int.ediv`/`Int.emod` give floor-and-nonnegative-remainder semantics, so
this rounds the value to the nearest integer with ties to the even
neighbour, for negative mantissas too. -/
def roundHalfEvenDiv (m : ℤ) (d : ℕ) : ℤ :=
  let p : ℤ := (10 : ℤ) ^ d
  let q := m.ediv p
  let r := m.emod p
  if 2 * r < p then q
  else if p < 2 * r then q + 1
  else if q.emod 2 = 0 then q else q + 1

/-- Model of `Decimal::round_dp(dp)`: round to `dp` fractional digits,
ties to even; a decimal that already has at most `dp` fractional digits
is returned unchanged (`parser.rs` applies this to both operands of every
numeric comparison). -/
def Dec.roundDp (dp : ℕ) (a : Dec) : Dec :=
  if a.scale ≤ dp then a
  else ⟨roundHalfEvenDiv a.mantissa (a.scale - dp), dp⟩

/-- Nearest-integer division of two integers, ties to even on the
magnitude.  Used only for the final digit of `Dec.div`; the single
division exercised by the claims (10 ÷ 3) is far from any tie, so the
tie-breaking convention is immaterial there. -/
def intRoundedDiv (num den : ℤ) : ℤ :=
  let n := num.natAbs
  let d := den.natAbs
  let q := n / d
  let r := n % d
  let q2 : ℕ :=
    if 2 * r < d then q
    else if d < 2 * r then q + 1
    else if q % 2 = 0 then q else q + 1
  if (decide (0 ≤ num) == decide (0 ≤ den)) then (q2 : ℤ) else -(q2 : ℤ)

/-- Drop trailing zero fractional digits (structural on the scale). -/
def Dec.strip (m : ℤ) : ℕ → Dec
  | 0 => ⟨m, 0⟩
  | s + 1 => if m.emod 10 = 0 then Dec.strip (m.ediv 10) s else ⟨m, s + 1⟩

/-- Decimal division: the quotient carried to 28 fractional digits with
the last digit rounded, then trailing zeros dropped, as `rust_decimal`'s
long division produces (e.g. 10 ÷ 3 = 3.3333333333333333333333333333 with
28 fractional digits, and 10 ÷ 2 = 5 exactly).  `Decimal` division panics
on a zero divisor; the `0` returned here stands in for that case, which
no claim reaches. -/
def Dec.div (a b : Dec) : Dec :=
  if b.mantissa = 0 then ⟨0, 0⟩
  else
    let num := a.mantissa * (10 : ℤ) ^ (b.scale + 28)
    let den := b.mantissa * (10 : ℤ) ^ a.scale
    Dec.strip (intRoundedDiv num den) 28

/-- Expression AST (`parse.rs::Expr`), number literals being `Decimal`
values. -/
inductive Expr where
  | Number (value : Dec)
  | Boolean (value : Bool)
  | NumberVariable (name : String)
  | BooleanVariable (name : String)
  | Plus (left right : Expr)
  | Minus (left right : Expr)
  | Times (left right : Expr)
  | Divide (left right : Expr)
  | And (left right : Expr)
  | Or (left right : Expr)
  | Not (arg : Expr)
  | Equal (left right : Expr)
  | NotEqual (left right : Expr)
  | LessThan (left right : Expr)
  | GreaterThan (left right : Expr)
  | LessThanEqual (left right : Expr)
  | GreaterThanEqual (left right : Expr)
  deriving DecidableEq

/-- Variable-key sets (`parse.rs::ExprVarKey`): the declared (or
extracted) boolean-typed and number-typed attribute names. -/
structure ExprVarKey where
  booleanKeys : List String
  numberKeys : List String
  deriving DecidableEq

/-- Concatenation of two key sets, as `loop_var_keys` does with its
`keys_append` closure (left keys first, then right keys). -/
def keysAppend (a b : ExprVarKey) : ExprVarKey :=
  ⟨a.booleanKeys ++ b.booleanKeys, a.numberKeys ++ b.numberKeys⟩

/-- Variable-key extraction (`parse.rs::loop_var_keys`, exposed as
`Expr::get_var_keys`): the variable leaves of the tree, left to right. -/
def loopVarKeys : Expr → ExprVarKey
  | .NumberVariable k => ⟨[], [k]⟩
  | .BooleanVariable k => ⟨[k], []⟩
  | .Number _ => ⟨[], []⟩
  | .Boolean _ => ⟨[], []⟩
  | .Not e => loopVarKeys e
  | .Plus l r | .Minus l r | .Times l r | .Divide l r
  | .And l r | .Or l r
  | .Equal l r | .NotEqual l r | .LessThan l r | .GreaterThan l r
  | .LessThanEqual l r | .GreaterThanEqual l r =>
      keysAppend (loopVarKeys l) (loopVarKeys r)

/-- Errors of `Parser::check_vars` (`bail!("数字变量 '{}' 不受支持")` and
`bail!("布尔变量 '{}' 不受支持")`), carrying the offending name. -/
inductive CheckError where
  | numberVar (name : String)
  | booleanVar (name : String)
  deriving DecidableEq

/-- Compile-time vocabulary validation (`parser.rs::Parser::check_vars`).
Note the faithful reproduction of the source's `match`: the recursive arm
lists the twelve binary variants only, so `Expr::Not` falls into the
`_ => {}` arm and its subtree is NOT visited. -/
def checkVars (key : ExprVarKey) : Expr → Except CheckError Unit
  | .NumberVariable name =>
      if key.numberKeys.contains name then .ok () else .error (.numberVar name)
  | .BooleanVariable name =>
      if key.booleanKeys.contains name then .ok () else .error (.booleanVar name)
  | .Plus l r | .Minus l r | .Times l r | .Divide l r
  | .And l r | .Or l r
  | .Equal l r | .NotEqual l r | .LessThan l r | .GreaterThan l r
  | .LessThanEqual l r | .GreaterThanEqual l r =>
      match checkVars key l with
      | .error e => .error e
      | .ok () => checkVars key r
  | _ => .ok ()

/-- Evaluation results (`parser.rs::ExprResult`). -/
inductive ExprResult where
  | Number (value : Dec)
  | Boolean (value : Bool)
  deriving DecidableEq

/-- Decidable equality for `Except` values, used to evaluate the model on
concrete inputs. -/
instance {ε α : Type} [DecidableEq ε] [DecidableEq α] : DecidableEq (Except ε α)
  | .ok a, .ok b =>
      if h : a = b then .isTrue (by rw [h]) else .isFalse (by simp [h])
  | .ok _, .error _ => .isFalse (by simp)
  | .error _, .ok _ => .isFalse (by simp)
  | .error a, .error b =>
      if h : a = b then .isTrue (by rw [h]) else .isFalse (by simp [h])

/-- Variable bindings (`parse.rs::ExprVar`); the two `HashMap`s are
modelled as functions to `Option`. -/
structure ExprVar where
  booleanVars : String → Option Bool
  numberVars : String → Option Dec

/-- Empty bindings, `ExprVar::default`. -/
def ExprVar.default : ExprVar := ⟨fun _ => none, fun _ => none⟩

/-- Evaluation errors of `Parser::exec`: the operand-type error
`anyhow!("无效的操作数类型: {}", op)` and the two missing-variable errors
naming the variable. -/
inductive EvalError where
  | invalidOperand (op : String)
  | numberVar (name : String)
  | booleanVar (name : String)
  deriving DecidableEq

/-- Expression evaluation (`parser.rs::Parser::exec`) at rounding
precision `prec`.  The left operand is evaluated first and its error wins,
as with the source's `?` on the left call; both operands of every numeric
comparison (and of numeric `==`/`!=`) are passed through
`round_dp(precision)` before comparing. -/
def pexec (prec : ℕ) (var : ExprVar) : Expr → Except EvalError ExprResult
  | .Number n => .ok (.Number n)
  | .Boolean b => .ok (.Boolean b)
  | .NumberVariable name =>
      match var.numberVars name with
      | some n => .ok (.Number n)
      | none => .error (.numberVar name)
  | .BooleanVariable name =>
      match var.booleanVars name with
      | some b => .ok (.Boolean b)
      | none => .error (.booleanVar name)
  | .Plus l r =>
      match pexec prec var l, pexec prec var r with
      | .ok (.Number a), .ok (.Number b) => .ok (.Number (a.add b))
      | .error e, _ => .error e
      | _, .error e => .error e
      | _, _ => .error (.invalidOperand "+")
  | .Minus l r =>
      match pexec prec var l, pexec prec var r with
      | .ok (.Number a), .ok (.Number b) => .ok (.Number (a.sub b))
      | .error e, _ => .error e
      | _, .error e => .error e
      | _, _ => .error (.invalidOperand "-")
  | .Times l r =>
      match pexec prec var l, pexec prec var r with
      | .ok (.Number a), .ok (.Number b) => .ok (.Number (a.mul b))
      | .error e, _ => .error e
      | _, .error e => .error e
      | _, _ => .error (.invalidOperand "*")
  | .Divide l r =>
      match pexec prec var l, pexec prec var r with
      | .ok (.Number a), .ok (.Number b) => .ok (.Number (a.div b))
      | .error e, _ => .error e
      | _, .error e => .error e
      | _, _ => .error (.invalidOperand "/")
  | .And l r =>
      match pexec prec var l, pexec prec var r with
      | .ok (.Boolean a), .ok (.Boolean b) => .ok (.Boolean (a && b))
      | .error e, _ => .error e
      | _, .error e => .error e
      | _, _ => .error (.invalidOperand "&&")
  | .Or l r =>
      match pexec prec var l, pexec prec var r with
      | .ok (.Boolean a), .ok (.Boolean b) => .ok (.Boolean (a || b))
      | .error e, _ => .error e
      | _, .error e => .error e
      | _, _ => .error (.invalidOperand "||")
  | .Not e =>
      match pexec prec var e with
      | .ok (.Boolean b) => .ok (.Boolean (!b))
      | .error err => .error err
      | _ => .error (.invalidOperand "!")
  | .LessThan l r =>
      match pexec prec var l, pexec prec var r with
      | .ok (.Number a), .ok (.Number b) =>
          .ok (.Boolean (Dec.lt (Dec.roundDp prec a) (Dec.roundDp prec b)))
      | .error e, _ => .error e
      | _, .error e => .error e
      | _, _ => .error (.invalidOperand "<")
  | .GreaterThan l r =>
      match pexec prec var l, pexec prec var r with
      | .ok (.Number a), .ok (.Number b) =>
          .ok (.Boolean (Dec.lt (Dec.roundDp prec b) (Dec.roundDp prec a)))
      | .error e, _ => .error e
      | _, .error e => .error e
      | _, _ => .error (.invalidOperand ">")
  | .LessThanEqual l r =>
      match pexec prec var l, pexec prec var r with
      | .ok (.Number a), .ok (.Number b) =>
          .ok (.Boolean (Dec.le (Dec.roundDp prec a) (Dec.roundDp prec b)))
      | .error e, _ => .error e
      | _, .error e => .error e
      | _, _ => .error (.invalidOperand "<=")
  | .GreaterThanEqual l r =>
      match pexec prec var l, pexec prec var r with
      | .ok (.Number a), .ok (.Number b) =>
          .ok (.Boolean (Dec.le (Dec.roundDp prec b) (Dec.roundDp prec a)))
      | .error e, _ => .error e
      | _, .error e => .error e
      | _, _ => .error (.invalidOperand ">=")
  | .Equal l r =>
      match pexec prec var l, pexec prec var r with
      | .ok (.Number a), .ok (.Number b) =>
          .ok (.Boolean (Dec.eqv (Dec.roundDp prec a) (Dec.roundDp prec b)))
      | .ok (.Boolean a), .ok (.Boolean b) => .ok (.Boolean (a == b))
      | .error e, _ => .error e
      | _, .error e => .error e
      | _, _ => .error (.invalidOperand "==")
  | .NotEqual l r =>
      match pexec prec var l, pexec prec var r with
      | .ok (.Number a), .ok (.Number b) =>
          .ok (.Boolean (!Dec.eqv (Dec.roundDp prec a) (Dec.roundDp prec b)))
      | .ok (.Boolean a), .ok (.Boolean b) => .ok (.Boolean (a != b))
      | .error e, _ => .error e
      | _, .error e => .error e
      | _, _ => .error (.invalidOperand "!=")

/-- Whitespace characters of the grammar's `_` rule
(`parse.rs` line 131: `[' ' | '\t' | '\n' | '\r']*`). -/
def isWsChar (c : Char) : Bool :=
  c = ' ' || c = '\t' || c = '\n' || c = '\r'

/-- Characters of the `world()` rule (`parse.rs` line 134):
Latin letters, CJK ideographs `\u{4e00}`..`\u{9fa5}`, `:` and `_`. -/
def isWorldChar (c : Char) : Bool :=
  (decide (97 ≤ c.toNat) && decide (c.toNat ≤ 122))
  || (decide (65 ≤ c.toNat) && decide (c.toNat ≤ 90))
  || (decide (0x4e00 ≤ c.toNat) && decide (c.toNat ≤ 0x9fa5))
  || c = ':' || c = '_'

/-- Decimal digit characters (`['0'..='9']`). -/
def isDigitChar (c : Char) : Bool :=
  decide (48 ≤ c.toNat) && decide (c.toNat ≤ 57)

/-- Consume the whitespace rule `_`. -/
def dropWs (cs : List Char) : List Char :=
  cs.dropWhile isWsChar

/-- Match a literal token at the head of the input, returning the rest. -/
def stripTok : List Char → List Char → Option (List Char)
  | [], cs => some cs
  | t :: ts, c :: cs => if c = t then stripTok ts cs else none
  | _ :: _, [] => none

/-- Tail iterations of the `variable()` rule (`parse.rs` line 135,
`$(world() (_ world())*)`): each iteration consumes interior whitespace
followed by another `world()` run, or the iteration backtracks and
contributes nothing.  Returns the raw captured characters (whitespace
included, as `$(..)` captures the matched slice) and the rest.  The fuel
is an upper bound on iterations; callers pass the input length. -/
def varTail : ℕ → List Char → List Char × List Char
  | 0, cs => ([], cs)
  | fuel + 1, cs =>
      let wsPart := cs.takeWhile isWsChar
      let rest := cs.dropWhile isWsChar
      let w := rest.takeWhile isWorldChar
      let rest2 := rest.dropWhile isWorldChar
      if w = [] then ([], cs)
      else
        let (m, r) := varTail fuel rest2
        (wsPart ++ w ++ m, r)

/-- The `variable()` rule: one `world()` run, then `(_ world())*`,
capturing the raw matched slice as the name. -/
def parseVarName (cs : List Char) : Option (String × List Char) :=
  let w := cs.takeWhile isWorldChar
  let rest := cs.dropWhile isWorldChar
  if w = [] then none
  else
    let (m, r) := varTail rest.length rest
    some (String.mk (w ++ m), r)

/-- Digit run to a natural number. -/
def digitsToNat (ds : List Char) : ℕ :=
  ds.foldl (fun acc c => 10 * acc + (c.toNat - 48)) 0

/-- The `number()` rule (`parse.rs` line 136:
`"-"? ['0'..='9']+ ("." ['0'..='9']+)?`, parsed via `f64` into
`Decimal::from_f64`, both modelled as the decimal value of the written
digits — exact for the short literals appearing in the claims).  If a `.`
is present but not followed by a digit, the optional group backtracks and
the integer part alone is the match. -/
def parseNumberLit (cs : List Char) : Option (Dec × List Char) :=
  let (neg, cs1) :=
    match cs with
    | '-' :: t => (true, t)
    | _ => (false, cs)
  let ds := cs1.takeWhile isDigitChar
  let cs2 := cs1.dropWhile isDigitChar
  if ds = [] then none
  else
    let (value, rest) :=
      match cs2 with
      | '.' :: cs3 =>
          let fs := cs3.takeWhile isDigitChar
          let cs4 := cs3.dropWhile isDigitChar
          if fs = [] then ((⟨(digitsToNat ds : ℤ), 0⟩ : Dec), cs2)
          else ((⟨(digitsToNat (ds ++ fs) : ℤ), fs.length⟩ : Dec), cs4)
      | _ => ((⟨(digitsToNat ds : ℤ), 0⟩ : Dec), cs2)
    some (if neg then (⟨-value.mantissa, value.scale⟩ : Dec) else value, rest)

/-- The `boolean()` rule: `"true" { true } / "false" { false }`. -/
def parseBoolLit (cs : List Char) : Option (Bool × List Char) :=
  match stripTok "true".data cs with
  | some r => some (true, r)
  | none =>
      match stripTok "false".data cs with
      | some r => some (false, r)
      | none => none

/-! The two `precedence!{..}` rules of `parse.rs` (`calculate()`, lines
140-150, and `logical()`, lines 153-168) are embedded as the
precedence-climbing parsers that `rust-peg` generates: groups separated
by `--` bind loosest first (the first group has level 0); a
left-associative row `x:(@) op y:@` at level `p` may extend the
current expression when `minPrec ≤ p` and parses its right operand at
level `p + 1`; a level-`p` row of the shape `"!" _ v:@` is tried in
primary position (row order, before deeper groups) with its operand
parsed at level `p + 1`; rows without `@` markers are primaries tried in
row order after the higher rows.  All functions carry explicit fuel;
every nested call strictly decreases it, and the fuel passed by
`pegParse` is large enough for the whole input. -/

mutual

/-- The `calculate()` rule at a minimum precedence: primary then the
infix loop.  Level 0 rows: `+`, `-`; level 1 rows: `*`, `/`; primaries:
`"(" _ calculate() _ ")"`, `variable()` (a `NumberVariable`), `number()`
— tried in this row order. -/
def calcParse (fuel minPrec : ℕ) (cs : List Char) : Option (Expr × List Char) :=
  match fuel with
  | 0 => none
  | f + 1 =>
      match calcAtom f cs with
      | some (lhs, r) => calcLoop f minPrec lhs r
      | none => none
termination_by structural fuel

/-- Primary alternatives of `calculate()`. -/
def calcAtom (fuel : ℕ) (cs : List Char) : Option (Expr × List Char) :=
  match fuel with
  | 0 => none
  | f + 1 =>
      (match cs with
       | '(' :: t =>
           match calcParse f 0 (dropWs t) with
           | some (e, r) =>
               match dropWs r with
               | ')' :: r2 => some (e, r2)
               | _ => none
           | none => none
       | _ => none)
      <|> (match parseVarName cs with
           | some (n, r) => some (Expr.NumberVariable n, r)
           | none => none)
      <|> (match parseNumberLit cs with
           | some (q, r) => some (Expr.Number q, r)
           | none => none)
termination_by structural fuel

/-- One extension step of the `calculate()` infix loop: try the four
operator rows in row order, gated by `minPrec`; on a match the right
operand is parsed one level tighter (left associativity). -/
def calcStep (fuel minPrec : ℕ) (lhs : Expr) (cs : List Char) :
    Option (Expr × List Char) :=
  match fuel with
  | 0 => none
  | f + 1 =>
      calcInfixOp f minPrec 0 ['+'] Expr.Plus lhs cs
      <|> calcInfixOp f minPrec 0 ['-'] Expr.Minus lhs cs
      <|> calcInfixOp f minPrec 1 ['*'] Expr.Times lhs cs
      <|> calcInfixOp f minPrec 1 ['/'] Expr.Divide lhs cs
termination_by structural fuel

/-- A single `x:(@) _ op _ y:@` row of `calculate()` at level `prec`. -/
def calcInfixOp (fuel minPrec prec : ℕ) (tok : List Char)
    (mk : Expr → Expr → Expr) (lhs : Expr) (cs : List Char) :
    Option (Expr × List Char) :=
  match fuel with
  | 0 => none
  | f + 1 =>
      if minPrec ≤ prec then
        match stripTok tok (dropWs cs) with
        | some r1 =>
            match calcParse f (prec + 1) (dropWs r1) with
            | some (rhs, r2) => some (mk lhs rhs, r2)
            | none => none
        | none => none
      else none
termination_by structural fuel

/-- The `calculate()` infix loop: extend the expression while a row
applies; stop (returning what was built) when none does. -/
def calcLoop (fuel minPrec : ℕ) (lhs : Expr) (cs : List Char) :
    Option (Expr × List Char) :=
  match fuel with
  | 0 => none
  | f + 1 =>
      match calcStep f minPrec lhs cs with
      | some (lhs2, cs2) => calcLoop f minPrec lhs2 cs2
      | none => some (lhs, cs)
termination_by structural fuel

end

/-- One comparison row of `logical()`:
`x:calculate() _ op _ y:calculate()`. -/
def cmpOne (fuel : ℕ) (tok : List Char) (mk : Expr → Expr → Expr)
    (cs : List Char) : Option (Expr × List Char) :=
  match calcParse fuel 0 cs with
  | some (l, r1) =>
      match stripTok tok (dropWs r1) with
      | some r2 =>
          match calcParse fuel 0 (dropWs r2) with
          | some (rr, r3) => some (mk l rr, r3)
          | none => none
      | none => none
  | none => none

/-- The six comparison rows of `logical()` in source row order:
`==`, `!=`, `<`, `>`, `<=`, `>=` (lines 158-163; the ordered choice makes
`<`\/`>` be tried before `<=`\/`>=`, with backtracking when the right
operand fails to parse). -/
def cmpAlts (fuel : ℕ) (cs : List Char) : Option (Expr × List Char) :=
  cmpOne fuel ['=', '='] Expr.Equal cs
  <|> cmpOne fuel ['!', '='] Expr.NotEqual cs
  <|> cmpOne fuel ['<'] Expr.LessThan cs
  <|> cmpOne fuel ['>'] Expr.GreaterThan cs
  <|> cmpOne fuel ['<', '='] Expr.LessThanEqual cs
  <|> cmpOne fuel ['>', '='] Expr.GreaterThanEqual cs

mutual

/-- The `logical()` rule at a minimum precedence: primary then the infix
loop.  Its single `--`-free top group (level 0) holds the rows `&&`, `||`
(left-associative infix) and the prefix row `"!" _ v:@`; level 1 holds
the six comparison rows; level 2 the primaries `boolean()`, `variable()`
(a `BooleanVariable`) and `"(" _ logical() _ ")"`. -/
def logicParse (fuel minPrec : ℕ) (cs : List Char) : Option (Expr × List Char) :=
  match fuel with
  | 0 => none
  | f + 1 =>
      match logicPrimary f cs with
      | some (lhs, r) => logicLoop f minPrec lhs r
      | none => none
termination_by structural fuel

/-- Primary alternatives of `logical()` in row order: the prefix `!` row
(level 0, operand at level 1), the comparisons (level 1), then boolean
literal, boolean variable and parenthesized `logical()` (level 2). -/
def logicPrimary (fuel : ℕ) (cs : List Char) : Option (Expr × List Char) :=
  match fuel with
  | 0 => none
  | f + 1 =>
      (match cs with
       | '!' :: t =>
           match logicParse f 1 (dropWs t) with
           | some (v, r) => some (Expr.Not v, r)
           | none => none
       | _ => none)
      <|> cmpAlts f cs
      <|> (match parseBoolLit cs with
           | some (b, r) => some (Expr.Boolean b, r)
           | none => none)
      <|> (match parseVarName cs with
           | some (n, r) => some (Expr.BooleanVariable n, r)
           | none => none)
      <|> (match cs with
           | '(' :: t =>
               match logicParse f 0 (dropWs t) with
               | some (e, r) =>
                   match dropWs r with
                   | ')' :: r2 => some (e, r2)
                   | _ => none
               | none => none
           | _ => none)
termination_by structural fuel

/-- One extension step of the `logical()` infix loop: the `&&` and `||`
rows (both level 0, so gated by `minPrec = 0`), right operand one level
tighter (left associativity). -/
def logicStep (fuel minPrec : ℕ) (lhs : Expr) (cs : List Char) :
    Option (Expr × List Char) :=
  match fuel with
  | 0 => none
  | f + 1 =>
      (if minPrec = 0 then
         match stripTok ['&', '&'] (dropWs cs) with
         | some r1 =>
             match logicParse f 1 (dropWs r1) with
             | some (rhs, r2) => some (Expr.And lhs rhs, r2)
             | none => none
         | none => none
       else none)
      <|> (if minPrec = 0 then
             match stripTok ['|', '|'] (dropWs cs) with
             | some r1 =>
                 match logicParse f 1 (dropWs r1) with
                 | some (rhs, r2) => some (Expr.Or lhs rhs, r2)
                 | none => none
             | none => none
           else none)
termination_by structural fuel

/-- The `logical()` infix loop. -/
def logicLoop (fuel minPrec : ℕ) (lhs : Expr) (cs : List Char) :
    Option (Expr × List Char) :=
  match fuel with
  | 0 => none
  | f + 1 =>
      match logicStep f minPrec lhs cs with
      | some (lhs2, cs2) => logicLoop f minPrec lhs2 cs2
      | none => some (lhs, cs)
termination_by structural fuel

end

/-- The grammar's entry rule (`parse.rs` line 170,
`rule parse() = _ e:logical() _`) as invoked through
`bool_parser::parse`, which additionally requires the whole input to be
consumed.  `none` models a `peg::error::ParseError` (a syntax error). -/
def pegParse (s : String) : Option Expr :=
  let fuel := 8 * (s.length + 2)
  match logicParse fuel 0 (dropWs s.data) with
  | some (e, r) => if dropWs r = [] then some e else none
  | none => none

/-- Errors of `Parser::parse` (`parser.rs` lines 75-80): either a
`peg` syntax error from `parse::parse`, or a `check_vars` rejection. -/
inductive ParseError where
  | syntaxError
  | unsupported (c : CheckError)
  deriving DecidableEq

/-- The compiled `Parser::parse`: parse the text, then validate its
variables against the declared vocabulary, returning the expression
unchanged on success. -/
def parserParse (key : ExprVarKey) (s : String) : Except ParseError Expr :=
  match pegParse s with
  | none => .error .syntaxError
  | some e =>
      match checkVars key e with
      | .error c => .error (.unsupported c)
      | .ok () => .ok e

/-- Rule actions (`metadata/rule.rs::RuleAction`). -/
inductive RuleAction where
  | ClickLock
  | ClickMark
  | Lock
  | OnlyLock
  | LockAndMark
  | UnLockAndMark
  deriving DecidableEq

/-- Raw rule records (`metadata/rule.rs::Rule`). -/
structure Rule where
  description : String
  expression : String
  action : RuleAction
  deriving DecidableEq

/-- Compiled rules (`rule_expr.rs::RuleExpr`). -/
structure RuleExpr where
  rule : Rule
  expr : Expr
  exprVarKey : ExprVarKey
  deriving DecidableEq

/-- Errors of `RuleExpr::from_rule`: the source wraps the parse error
with the rule's expression text
(`anyhow!("解析规则表达式失败: \n{}\n错误原因: {}", ..)`). -/
inductive FromRuleError where
  | parseFailed (expression : String) (cause : ParseError)
  deriving DecidableEq

/-- Rule compilation (`rule_expr.rs::RuleExpr::from_rule`): parse and
validate the expression text, extract its variable keys. -/
def fromRule (key : ExprVarKey) (r : Rule) : Except FromRuleError RuleExpr :=
  match parserParse key r.expression with
  | .error e => .error (.parseFailed r.expression e)
  | .ok e => .ok { rule := r, expr := e, exprVarKey := loopVarKeys e }

/-- Batch rule compilation (`RuleExpr::from_rules`): all-or-nothing, the
first failing rule aborts. -/
def fromRules (key : ExprVarKey) : List Rule → Except FromRuleError (List RuleExpr)
  | [] => .ok []
  | r :: rs =>
      match fromRule key r with
      | .error e => .error e
      | .ok re =>
          match fromRules key rs with
          | .error e => .error e
          | .ok res => .ok (re :: res)

/-- Artifact sub-stat records (`artifact.rs::ArtifactSubStat`), `f32`
values as decimals. -/
structure ArtifactSubStat where
  name : String
  value : Dec
  unactivated : Bool
  deriving DecidableEq

/-- Recognized artifact state (`artifact.rs::Artifact`). -/
structure Artifact where
  name : String
  slot : String
  mainStat : String
  mainStatValue : Dec
  stars : Dec
  sanctifyingElixir : Bool
  level : Dec
  marked : Bool
  locked : Bool
  subStats : List ArtifactSubStat
  setName : String
  equipped : Bool
  deriving DecidableEq

/-- The word table of the artifact metadata
(`metadata/artifact_info.rs::ArtifactWord`). -/
structure ArtifactWord where
  artifact : String
  star : String
  level : String
  equipped : String
  locked : String
  marked : String
  sanctifyingElixir : String
  mainStat : String
  subStatsCount : String
  unactivated : String
  noMatchArtifacts : String
  deriving DecidableEq

/-- The artifact metadata singleton `ARTIFACT_INFO`
(`metadata/artifact_info.rs::ArtifactInfo`).  Its contents come from the
embedded `artifact_info.yaml` data file, which is not part of the source;
the model is therefore parameterized by the lists the actuator reads:
`get_artifact_names()`, `slots`, `get_artifact_set_names()`, `stats` and
the word table. -/
structure ArtifactInfo where
  slots : List String
  stats : List String
  words : ArtifactWord
  artifactNames : List String
  setNames : List String
  deriving DecidableEq

/-- Pointwise-update model of `HashMap::insert`. -/
def insertMap {α : Type} (m : String → Option α) (k : String) (v : α) :
    String → Option α :=
  fun n => if n = k then some v else m n

/-- Model of `HashMap::extend` over an insertion list: later entries
override earlier ones, earlier entries override the base map. -/
def insertAll {α : Type} (m : String → Option α) (l : List (String × α)) :
    String → Option α :=
  l.foldl (fun acc kv => insertMap acc kv.1 kv.2) m

/-- The insertion sequence of `Artifact::get_boolean_maps`
(`artifact.rs` lines 68-81), in source order. -/
def booleanMapsList (info : ArtifactInfo) (a : Artifact) : List (String × Bool) :=
  [(a.name, true), (a.slot, true), (a.setName, true),
   (info.words.sanctifyingElixir, a.sanctifyingElixir),
   (info.words.equipped, a.equipped),
   (info.words.marked, a.marked),
   (info.words.locked, a.locked)]

/-- The number of activated sub-stats
(`artifact.rs` lines 99-105: sub-stats filtered on `!unactivated`,
counted, as an `f32`). -/
def activeSubStatCount (a : Artifact) : Dec :=
  ⟨((a.subStats.filter (fun s => !s.unactivated)).length : ℤ), 0⟩

/-- The insertion sequence of `Artifact::get_number_maps`
(`artifact.rs` lines 88-107), in source order: stars, level, the
`main_stat`-prefixed main-stat value, each sub-stat, then the activated
sub-stat count. -/
def numberMapsList (info : ArtifactInfo) (a : Artifact) : List (String × Dec) :=
  [(info.words.star, a.stars), (info.words.level, a.level),
   (info.words.mainStat ++ ":" ++ a.mainStat, a.mainStatValue)]
  ++ a.subStats.map (fun s => (s.name, s.value))
  ++ [(info.words.subStatsCount, activeSubStatCount a)]

/-- Variable-binding construction (`actuator.rs::Actuator::generate_vars`):
default-`false` booleans for every artifact name, slot and set name and
default-`0` numbers for every stat and `main_stat`-prefixed stat, then the
artifact's own maps on top, finally filtered down to the keys the rule's
expression actually reads. -/
def generateVars (info : ArtifactInfo) (a : Artifact) (key : ExprVarKey) :
    ExprVar :=
  let baseBoolean : String → Option Bool := fun n =>
    if info.artifactNames.contains n || info.slots.contains n
        || info.setNames.contains n then some false else none
  let booleanAll := insertAll baseBoolean (booleanMapsList info a)
  let baseNumber : String → Option Dec := fun n =>
    if info.stats.contains n
        || (info.stats.map (fun s => info.words.mainStat ++ ":" ++ s)).contains n
    then some (⟨0, 0⟩ : Dec) else none
  let numberAll := insertAll baseNumber (numberMapsList info a)
  { booleanVars := fun n =>
      if key.booleanKeys.contains n then booleanAll n else none,
    numberVars := fun n =>
      if key.numberKeys.contains n then numberAll n else none }

/-- One rule action applied to the simulated artifact state
(`actuator.rs` lines 214-242): the `match rule_expr.rule.action` body,
with `ClickLock`/`ClickMark` first toggling and then repairing the
coupled state exactly as the source does. -/
def applyRuleAction (act : RuleAction) (a : Artifact) : Artifact :=
  match act with
  | .ClickLock =>
      let a2 := { a with locked := !a.locked }
      if a2.marked && !a2.locked then { a2 with marked := false } else a2
  | .ClickMark =>
      let a2 := { a with marked := !a.marked }
      if !a2.locked && a2.marked then { a2 with locked := true } else a2
  | .Lock => { a with locked := true }
  | .OnlyLock => { a with locked := true, marked := false }
  | .LockAndMark => { a with locked := true, marked := true }
  | .UnLockAndMark => { a with locked := false, marked := false }

/-- One iteration of the rule loop of `Actuator::exec`
(`actuator.rs` lines 206-244): bindings are derived from the CURRENT
artifact state, the expression is evaluated, a `true` boolean applies the
action, a `false` boolean or a non-boolean result leaves the artifact
unchanged (the source's `if let ExprResult::Boolean(..)` silently skips
number results), and an evaluation error propagates via `?`. -/
def ruleStep (info : ArtifactInfo) (prec : ℕ) (re : RuleExpr) (a : Artifact) :
    Except EvalError Artifact :=
  match pexec prec (generateVars info a re.exprVarKey) re.expr with
  | .error e => .error e
  | .ok (.Boolean true) => .ok (applyRuleAction re.rule.action a)
  | .ok (.Boolean false) => .ok a
  | .ok (.Number _) => .ok a

/-- The full rule loop of `Actuator::exec`: every rule is visited in
compiled order, with no short-circuit after a match. -/
def execRules (info : ArtifactInfo) (prec : ℕ) :
    List RuleExpr → Artifact → Except EvalError Artifact
  | [], a => .ok a
  | re :: res, a =>
      match ruleStep info prec re a with
      | .error e => .error e
      | .ok a2 => execRules info prec res a2

/-- The two physical toggle controls an actuation can click
(`Actuator::click_lock` and `Actuator::click_mark`; the
sanctifying-elixir offset changes the click coordinate, not which
control is clicked). -/
inductive Click where
  | lock
  | mark
  deriving DecidableEq

/-- Clicks emitted by `Actuator::handle_only_lock`
(`actuator.rs` lines 105-114), judged on the ORIGINAL artifact state. -/
def handleOnlyLock (a : Artifact) : List Click :=
  if a.locked then
    if a.marked then [Click.mark] else []
  else [Click.lock]

/-- Clicks emitted by `Actuator::handle_lock_and_mark`
(`actuator.rs` lines 121-126). -/
def handleLockAndMark (a : Artifact) : List Click :=
  if !a.marked then [Click.mark] else []

/-- Clicks emitted by `Actuator::handle_un_lock_and_mark`
(`actuator.rs` lines 133-138). -/
def handleUnLockAndMark (a : Artifact) : List Click :=
  if a.locked then [Click.lock] else []

/-- Outcome tags of `Actuator::exec` (`actuator.rs::ActuatorResult`). -/
inductive ActuatorResult where
  | UnlockAndUnmark
  | OnlyLock
  | LockAndMark
  deriving DecidableEq

/-- Observable outcome of one `Actuator::exec` call: a normal return with
its tag, the mutated artifact and the clicks emitted; a propagated
evaluation error (the `?` on `parser.exec`, surfaced through the normal
`Result` channel); or a panic — the source's `unreachable!` macro, which
aborts the process and returns through no error channel. -/
inductive ExecOutcome where
  | ok (result : ActuatorResult) (artifact : Artifact) (clicks : List Click)
  | evalError (e : EvalError)
  | panicked (msg : String)
  deriving DecidableEq

/-- The actuation engine (`actuator.rs::Actuator::exec`): snapshot the
original state, run every rule on the simulated state, then reconcile the
simulated target with the ORIGINAL snapshot; the `(locked = false,
marked = true)` target hits `unreachable!("不存在未锁定但标记的圣遗物")`. -/
def actuatorExec (info : ArtifactInfo) (prec : ℕ) (rules : List RuleExpr)
    (a : Artifact) : ExecOutcome :=
  let before := a
  match execRules info prec rules a with
  | .error e => .evalError e
  | .ok a2 =>
      if a2.locked then
        if a2.marked then
          .ok .LockAndMark a2 (handleLockAndMark before)
        else
          .ok .OnlyLock a2 (handleOnlyLock before)
      else
        if a2.marked then
          .panicked "不存在未锁定但标记的圣遗物"
        else
          .ok .UnlockAndUnmark a2 (handleUnLockAndMark before)

/-- RGB color (`image::Rgb<u8>`), channels 0..=255. -/
structure Rgb where
  r : ℕ
  g : ℕ
  b : ℕ
  deriving DecidableEq

/-- Color distance (`color.rs::color_distance`): sum of squared channel
differences.  The `i32` arithmetic cannot overflow for `u8` channels and
the final `.abs` is the identity on the non-negative sum. -/
def colorDistance (c1 c2 : Rgb) : ℤ :=
  let x := (c1.r : ℤ) - (c2.r : ℤ)
  let y := (c1.g : ℤ) - (c2.g : ℤ)
  let z := (c1.b : ℤ) - (c2.b : ℤ)
  |x * x + y * y + z * z|

/-- Identification errors (`identifier.rs`): `markedNotLocked` is the
guard error `anyhow!("圣遗物扫描出已标记未锁定的异常状态")` of
`Identifier::identify`; every other failure of a sub-identifier (OCR
mismatches in strict mode, the level range check, …) is carried as
`failed` with its message. -/
inductive IdentifyError where
  | markedNotLocked
  | failed (msg : String)
  deriving DecidableEq

/-- Results of `Identifier::identify` (`identifier.rs::IdentifyResult`). -/
inductive IdentifyResult where
  | artifact (a : Artifact)
  | material (stars : Dec)
  deriving DecidableEq

/-- Environment of one `Identifier::identify` call: the outcome each
sub-identifier produces from the captured screenshot.  The OCR- and
flag-dependent internals of the sub-identifiers are abstracted as these
oracles; the marked/locked detectors are modelled down to their pixel
colors (`identifier.rs` lines 320-341) since claim C10 cites them. -/
structure IdentifyEnv where
  isArtifact : Bool
  name : Except IdentifyError String
  slot : Except IdentifyError String
  mainStat : Except IdentifyError String
  mainStatValue : Except IdentifyError Dec
  stars : Except IdentifyError Dec
  sanctifyingElixir : Except IdentifyError Bool
  level : Except IdentifyError Dec
  markedColor : Rgb
  lockedColor : Rgb
  subStats : Except IdentifyError (List ArtifactSubStat)
  setName : Except IdentifyError String
  equipped : Except IdentifyError Bool

/-- Marked-state detection (`Identifier::identify_artifact_marked`,
`identifier.rs` lines 320-327): the pixel at the mark control is compared
against white; a color distance above 65025 means marked. -/
def identifyArtifactMarked (env : IdentifyEnv) : Bool :=
  decide (65025 < colorDistance env.markedColor ⟨255, 255, 255⟩)

/-- Locked-state detection (`Identifier::identify_artifact_locked`,
`identifier.rs` lines 334-341): same white-distance test at the lock
control's pixel. -/
def identifyArtifactLocked (env : IdentifyEnv) : Bool :=
  decide (65025 < colorDistance env.lockedColor ⟨255, 255, 255⟩)

/-- The identification pipeline (`Identifier::identify`, `identifier.rs`
lines 423-479): non-artifact frames yield an enhancement material; for
artifacts the sub-identifiers run in source order, the recognized
marked/locked pair is checked — `marked && !locked` is rejected with an
error before any artifact is built — and the artifact is assembled from
the recognized fields. -/
def identify (env : IdentifyEnv) : Except IdentifyError IdentifyResult :=
  if !env.isArtifact then
    match env.stars with
    | .error e => .error e
    | .ok stars => .ok (.material stars)
  else
    match env.name with
    | .error e => .error e
    | .ok name =>
    match env.slot with
    | .error e => .error e
    | .ok slot =>
    match env.mainStat with
    | .error e => .error e
    | .ok mainStat =>
    match env.mainStatValue with
    | .error e => .error e
    | .ok mainStatValue =>
    match env.stars with
    | .error e => .error e
    | .ok stars =>
    match env.sanctifyingElixir with
    | .error e => .error e
    | .ok sanctifyingElixir =>
    match env.level with
    | .error e => .error e
    | .ok level =>
    let marked := identifyArtifactMarked env
    let locked := identifyArtifactLocked env
    if marked && !locked then .error .markedNotLocked
    else
      match env.subStats with
      | .error e => .error e
      | .ok subStats =>
      match env.setName with
      | .error e => .error e
      | .ok setName =>
      match env.equipped with
      | .error e => .error e
      | .ok equipped =>
      .ok (.artifact ⟨name, slot, mainStat, mainStatValue, stars,
        sanctifyingElixir, level, marked, locked, subStats, setName,
        equipped⟩)

/-- Outcomes of one `Scanner::move_row` call (`scanner.rs` lines
357-377): success, the cooperative-cancellation result
(`GiaaError::RightClickExit`), or the retry-budget error
`anyhow!("移动一行失败, 超出最大次数")`. -/
inductive MoveRowOutcome where
  | success
  | rightClickExit
  | retryExceeded
  deriving DecidableEq

/-- Environment of one `move_row` call: per attempt `i`, whether the
right mouse button is down when polled, and the page-turn indicator color
sampled after the scroll and settle delay. -/
structure MoveRowEnv where
  cancel : ℕ → Bool
  color : ℕ → Rgb

/-- The body of `move_row`'s bounded `for _ in 0..30` loop, with
`attempts` iterations left, `i` the current attempt index, `changed` the
two-phase flag and `scrolls` the scroll units consumed so far.  Each
iteration polls cancellation, scrolls one unit, samples the indicator and
applies the shift-then-resettle test: once `changed` is set, a distance
back within 10 of the baseline completes the move; a distance above 10
sets `changed`. -/
def moveRowGo (env : MoveRowEnv) (baseline : Rgb) :
    ℕ → ℕ → Bool → ℕ → MoveRowOutcome × ℕ
  | 0, _, _, scrolls => (.retryExceeded, scrolls)
  | attempts + 1, i, changed, scrolls =>
      if env.cancel i then (.rightClickExit, scrolls)
      else
        let scrolls2 := scrolls + 1
        let dist := colorDistance baseline (env.color i)
        if changed && decide (dist ≤ 10) then (.success, scrolls2)
        else
          moveRowGo env baseline attempts (i + 1)
            (if !changed && decide (10 < dist) then true else changed) scrolls2

/-- `Scanner::move_row`: the loop above with its retry budget of 30,
starting unchanged with no scrolls consumed; falling out of the loop
yields the retry-budget error. -/
def moveRow (env : MoveRowEnv) (baseline : Rgb) : MoveRowOutcome × ℕ :=
  moveRowGo env baseline 30 0 false 0

/-- What the identify-and-actuate step of a grid cell produces
(`scanner.rs` lines 300-315): a recognized artifact (fed to the
actuator), an enhancement material (logged), or a recognition failure
(logged and skipped). -/
inductive CellIdentify where
  | artifact (a : Artifact)
  | material
  | failed
  deriving DecidableEq

/-- Outcome of `Scanner::move_rows` for one planned multi-row move,
abstracted as an oracle: moved into place, a navigation failure
(retry/adjustment budget), or cancellation from within `move_row`. -/
inductive MoveOutcome where
  | moved
  | navFailed
  | cancelled
  deriving DecidableEq

/-- Environment of a scan: per visited cell (counted in visit order),
the cancellation poll, the card-presence check
(`check_has_artifact_card`, an `average_color_diff > 1000` test on the
cell patch, abstracted as its boolean outcome) and the identify outcome;
per loop iteration of `scan_all_page`, the total-row estimate
(`get_artifact_list_total_rows`, a scrollbar-pixel estimator abstracted
as its numeric outcome) and the `move_rows` outcome. -/
structure ScanEnv where
  cancel : ℕ → Bool
  hasCard : ℕ → Bool
  cell : ℕ → CellIdentify
  totalRows : ℕ → ℕ
  move : ℕ → MoveOutcome

/-- Results of the scanning loops, separating the source's
`Ok(..)`/`GiaaError::RightClickExit`/`GiaaError::AnyhowError(..)`
channels; `panicked` stands for a process abort inside `Actuator::exec`;
`fuelOut` marks model-fuel exhaustion only (the source's outer loop has
no such bound). -/
inductive ScanResult (α : Type) where
  | ok (value : α) (nextCell : ℕ)
  | rightClickExit
  | navFailed
  | evalFailed (e : EvalError)
  | panicked (msg : String)
  | fuelOut
  deriving DecidableEq

/-- `Scanner::scan_now_page` (`scanner.rs` lines 274-319) over the
`cells` cells of the requested rows in visit order (row-major; the click
coordinates derived from `start`/`col`/`row` are not modelled): poll
cancellation, check card presence — `Ok(false)`, a non-full page, when no
card is present — then identify and actuate, skipping recognition
failures and materials. -/
def scanNowPage (info : ArtifactInfo) (prec : ℕ) (rules : List RuleExpr)
    (env : ScanEnv) : ℕ → ℕ → ScanResult Bool
  | 0, idx => .ok true idx
  | cells + 1, idx =>
      if env.cancel idx then .rightClickExit
      else if !env.hasCard idx then .ok false idx
      else
        match env.cell idx with
        | .artifact a =>
            match actuatorExec info prec rules a with
            | .ok _ _ _ => scanNowPage info prec rules env cells (idx + 1)
            | .evalError e => .evalFailed e
            | .panicked m => .panicked m
        | .material => scanNowPage info prec rules env cells (idx + 1)
        | .failed => scanNowPage info prec rules env cells (idx + 1)

/-- `Scanner::scan_all_page` (`scanner.rs` lines 410-432): scan the
current page; a non-full page ends the loop normally; otherwise read the
total-row estimate, stop when no rows remain, else move down
`min(artifact_page_rows, remaining)` rows and continue.  State: `iter`
the loop iteration, `rowIndex` the source's `row_index`, `pageRows` the
current page's row count, `idx` the running cell counter.  The `u32`
subtraction computing the remaining rows is modelled as truncated `ℕ`
subtraction.  `fuel` bounds the model's loop unrolling only. -/
def scanAllPage (info : ArtifactInfo) (prec : ℕ) (rules : List RuleExpr)
    (env : ScanEnv) (pageRowsTotal pageCols : ℕ) :
    ℕ → ℕ → ℕ → ℕ → ℕ → ScanResult Unit
  | 0, _, _, _, _ => .fuelOut
  | fuel + 1, iter, rowIndex, pageRows, idx =>
      match scanNowPage info prec rules env (pageRows * pageCols) idx with
      | .rightClickExit => .rightClickExit
      | .navFailed => .navFailed
      | .evalFailed e => .evalFailed e
      | .panicked m => .panicked m
      | .fuelOut => .fuelOut
      | .ok isFull idx2 =>
          if !isFull then .ok () idx2
          else
            let rowCount := env.totalRows iter
            let remaining := rowCount - rowIndex - pageRowsTotal
            if remaining = 0 then .ok () idx2
            else
              let pageRows2 := min pageRowsTotal remaining
              match env.move iter with
              | .cancelled => .rightClickExit
              | .navFailed => .navFailed
              | .moved =>
                  scanAllPage info prec rules env pageRowsTotal pageCols
                    fuel (iter + 1) (rowIndex + pageRows2) pageRows2 idx2

/-- A run of `scan_all_page` as `Scanner::scan` starts it: `row_index`
zero, a first full page of `artifact_page_rows` rows, the cell counter at
zero. -/
def scanAllPageRun (info : ArtifactInfo) (prec : ℕ) (rules : List RuleExpr)
    (env : ScanEnv) (pageRowsTotal pageCols fuel : ℕ) : ScanResult Unit :=
  scanAllPage info prec rules env pageRowsTotal pageCols fuel 0 0 pageRowsTotal 0

/-- An artifact with its two toggle states replaced; a convenience for
stating state-pair properties of the actuation engine. -/
def withToggles (a : Artifact) (locked marked : Bool) : Artifact :=
  { a with locked := locked, marked := marked }

/-- A compiled rule whose expression is the literal `true`, so that it
matches every artifact and applies `act`.  Its variable-key set is the
(empty) extraction of its expression. -/
def alwaysRule (act : RuleAction) : RuleExpr :=
  ⟨⟨"always", "true", act⟩, .Boolean true, ⟨[], []⟩⟩

/-- A concrete word table for running the model on explicit inputs (the
real table is loaded from the metadata yaml; only distinctness of the
words matters here). -/
def wordsDemo : ArtifactWord :=
  ⟨"artifact", "star", "level", "equipped", "locked", "marked",
   "sanctifying", "main", "subcount", "unactivated", "nomatch"⟩

/-- A concrete artifact metadata value for running the model. -/
def infoDemo : ArtifactInfo :=
  ⟨[], [], wordsDemo, [], []⟩

/-- A concrete artifact, unlocked and unmarked. -/
def artifactDemo : Artifact :=
  ⟨"demo-name", "demo-slot", "demo-main", ⟨0, 0⟩, ⟨5, 0⟩, false, ⟨20, 0⟩,
   false, false, [], "demo-set", false⟩

/-- A compiled rule matching every artifact and locking it. -/
def ruleLockDemo : RuleExpr :=
  ⟨⟨"lock all", "true", .Lock⟩, .Boolean true, ⟨[], []⟩⟩

/-- A compiled rule whose expression reads the `locked` boolean variable
(as compiled from the text `"locked"`) and, when it holds, locks and
marks the artifact. -/
def ruleWhenLockedDemo : RuleExpr :=
  ⟨⟨"mark locked", "locked", .LockAndMark⟩, .BooleanVariable "locked",
   ⟨["locked"], []⟩⟩

/-- The abstract syntax tree the specification claims for
`"a&&b||c&&!d"`: `Or(And(a,b), And(c, Not(d)))`. -/
def specClaimedAst : Expr :=
  .Or (.And (.BooleanVariable "a") (.BooleanVariable "b"))
    (.And (.BooleanVariable "c") (.Not (.BooleanVariable "d")))

/-- The abstract syntax tree the grammar actually produces for
`"a&&b||c&&!d"` (also pinned by the repository's own test
`test_parse_boolean_variable`): `And(Or(And(a,b), c), Not(d))`. -/
def grammarActualAst : Expr :=
  .And (.Or (.And (.BooleanVariable "a") (.BooleanVariable "b"))
    (.BooleanVariable "c")) (.Not (.BooleanVariable "d"))

/-- A scan environment whose every cell fails the card-presence check
(and is never cancelled). -/
def envNoCard : ScanEnv :=
  ⟨fun _ => false, fun _ => false, fun _ => .material, fun _ => 0,
   fun _ => .moved⟩

/-- A move-row environment that is never cancelled and whose indicator
pixel stays black. -/
def envStuck : MoveRowEnv :=
  ⟨fun _ => false, fun _ => ⟨0, 0, 0⟩⟩

/-- A fully successful identify environment whose mark and lock pixels
are both far from white (both toggles read as set). -/
def identifyEnvDemo : IdentifyEnv :=
  ⟨true, .ok "demo-name", .ok "demo-slot", .ok "demo-main", .ok ⟨0, 0⟩,
   .ok ⟨5, 0⟩, .ok false, .ok ⟨20, 0⟩, ⟨0, 0, 0⟩, ⟨0, 0, 0⟩, .ok [],
   .ok "demo-set", .ok true⟩

/-- The artifact `identify` reconstructs from `identifyEnvDemo`. -/
def identifiedDemo : Artifact :=
  ⟨"demo-name", "demo-slot", "demo-main", ⟨0, 0⟩, ⟨5, 0⟩, false, ⟨20, 0⟩,
   true, true, [], "demo-set", true⟩

/-- Legality (`marked ⇒ locked`) is preserved by every single rule
action of the actuation state machine. -/
theorem applyRuleAction_legal (act : RuleAction) (a : Artifact)
    (h : a.marked = true → a.locked = true) :
    (applyRuleAction act a).marked = true →
    (applyRuleAction act a).locked = true := by
  obtain ⟨n, s, ms, mv, st, sa, lv, m, l, ss, sn, e⟩ := a
  cases act <;> cases m <;> cases l <;> simp_all [applyRuleAction]

/-- Legality is preserved by the rule loop's state transformation over
any action sequence. -/
theorem foldlRuleActions_legal (acts : List RuleAction) :
    ∀ a : Artifact, (a.marked = true → a.locked = true) →
    ((acts.foldl (fun s act => applyRuleAction act s) a).marked = true →
     (acts.foldl (fun s act => applyRuleAction act s) a).locked = true) := by
  induction acts with
  | nil => intro a h; simpa using h
  | cons act rest ih =>
      intro a h
      simpa using ih (applyRuleAction act a) (applyRuleAction_legal act a h)

/-- Legality is preserved by one iteration of `Actuator::exec`'s rule
loop. -/
theorem ruleStep_legal (info : ArtifactInfo) (prec : ℕ) (re : RuleExpr)
    (a a2 : Artifact) (h : ruleStep info prec re a = .ok a2)
    (hleg : a.marked = true → a.locked = true) :
    a2.marked = true → a2.locked = true := by
  unfold ruleStep at h
  cases hp : pexec prec (generateVars info a re.exprVarKey) re.expr with
  | error e => rw [hp] at h; cases h
  | ok r =>
      rw [hp] at h
      cases r with
      | Number v => simp only [Except.ok.injEq] at h; subst h; exact hleg
      | Boolean b =>
          cases b with
          | false => simp only [Except.ok.injEq] at h; subst h; exact hleg
          | true =>
              simp only [Except.ok.injEq] at h
              subst h
              exact applyRuleAction_legal re.rule.action a hleg

/-- Legality is preserved by the whole rule loop of `Actuator::exec`. -/
theorem execRules_legal (info : ArtifactInfo) (prec : ℕ)
    (rules : List RuleExpr) : ∀ a a2 : Artifact,
    execRules info prec rules a = .ok a2 →
    (a.marked = true → a.locked = true) →
    (a2.marked = true → a2.locked = true) := by
  induction rules with
  | nil =>
      intro a a2 h hleg
      simp only [execRules, Except.ok.injEq] at h
      subst h; exact hleg
  | cons re rest ih =>
      intro a a2 h hleg
      unfold execRules at h
      cases hp : ruleStep info prec re a with
      | error e => rw [hp] at h; cases h
      | ok a3 =>
          rw [hp] at h
          exact ih a3 a2 h (ruleStep_legal info prec re a a3 hp hleg)

/-- Processing a concatenation of rule lists is processing the first
list and then, from the state it produced, the second: the loop neither
stops at a match nor reorders rules. -/
theorem execRules_append (info : ArtifactInfo) (prec : ℕ)
    (rs1 rs2 : List RuleExpr) : ∀ a : Artifact,
    execRules info prec (rs1 ++ rs2) a =
      match execRules info prec rs1 a with
      | .error e => .error e
      | .ok a2 => execRules info prec rs2 a2 := by
  induction rs1 with
  | nil => intro a; rfl
  | cons re rest ih =>
      intro a
      simp only [List.cons_append, execRules]
      cases hp : ruleStep info prec re a <;> simp [ih]

/-- The scroll units consumed by `move_row`'s loop never exceed the
attempts remaining plus those already consumed. -/
theorem moveRowGo_scrolls_le (env : MoveRowEnv) (baseline : Rgb) :
    ∀ (attempts i : ℕ) (changed : Bool) (scrolls : ℕ),
    (moveRowGo env baseline attempts i changed scrolls).2 ≤ scrolls + attempts := by
  intro attempts
  induction attempts with
  | zero => intro i changed scrolls; simp [moveRowGo]
  | succ n ih =>
      intro i changed scrolls
      unfold moveRowGo
      by_cases hc : env.cancel i
      · simp [hc]
      · simp only [hc, if_false, Bool.false_eq_true]
        by_cases hdone :
            (changed && decide (colorDistance baseline (env.color i) ≤ 10)) = true
        · simp [hdone]
        · simp only [hdone, if_false, Bool.false_eq_true]
          exact le_trans (ih (i + 1) _ (scrolls + 1)) (by omega)

/-- When the indicator never settles back within the threshold,
`move_row`'s loop runs through its whole budget and fails. -/
theorem moveRowGo_stuck (env : MoveRowEnv) (baseline : Rgb)
    (hc : ∀ i, env.cancel i = false)
    (hd : ∀ i, 10 < colorDistance baseline (env.color i)) :
    ∀ (attempts i scrolls : ℕ) (changed : Bool),
    moveRowGo env baseline attempts i changed scrolls
      = (.retryExceeded, scrolls + attempts) := by
  intro attempts
  induction attempts with
  | zero => intro i scrolls changed; simp [moveRowGo]
  | succ n ih =>
      intro i scrolls changed
      unfold moveRowGo
      have h1 : decide (colorDistance baseline (env.color i) ≤ 10) = false := by
        simpa using not_le_of_lt (hd i)
      rw [hc i]
      simp only [if_false, Bool.false_eq_true, h1, Bool.and_false]
      rw [ih (i + 1) (scrolls + 1) _]
      have : scrolls + 1 + n = scrolls + (n + 1) := by omega
      simp [this]

/-- C1, counterexample: called on an artifact whose simulated final
state is `(locked = false, marked = true)` (no rule fires on an
already-illegal snapshot), `Actuator::exec` does not return an error
through its `Result` channel — it aborts via `unreachable!` with a fixed
message that names no item. -/
theorem C1_counterexample :
    actuatorExec infoDemo 3 [] (withToggles artifactDemo false true)
      = .panicked "不存在未锁定但标记的圣遗物" := by decide

/-- C1, amended: whenever the rule loop leaves the simulated state at
`(locked = false, marked = true)`, `Actuator::exec` panics through the
`unreachable!` macro — a process abort with a fixed message not naming
the item — instead of returning a fatal error through the normal error
channel. -/
theorem C1_ft_target_panics (info : ArtifactInfo) (prec : ℕ)
    (rules : List RuleExpr) (a a2 : Artifact)
    (h : execRules info prec rules a = .ok a2)
    (hl : a2.locked = false) (hm : a2.marked = true) :
    actuatorExec info prec rules a = .panicked "不存在未锁定但标记的圣遗物" := by
  unfold actuatorExec
  rw [h]
  simp [hl, hm]

/-- C1, witness: the amended theorem applied to the empty rule list and
a concrete `(locked = false, marked = true)` artifact. -/
theorem C1_ft_target_panics_witness :
    actuatorExec infoDemo 3 [] (withToggles artifactDemo false true)
      = .panicked "不存在未锁定但标记的圣遗物" :=
  C1_ft_target_panics infoDemo 3 [] (withToggles artifactDemo false true)
    (withToggles artifactDemo false true) (by decide) (by decide) (by decide)

/-- C2, counterexample: the input `"a&&b||c&&!d"` does not parse to the
claimed `Or(And(a,b), And(c, Not(d)))` — `&&` does not bind tighter than
`||` in this grammar. -/
theorem C2_counterexample :
    ¬ pegParse "a&&b||c&&!d" = some specClaimedAst := by decide

/-- C2, amended: in the `logical()` grammar `!`, `&&` and `||` share one
precedence level — `&&` and `||` have equal precedence and group left to
right, and prefix `!` binds its operand at the comparison/atom level —
so `"a&&b||c&&!d"` parses as `And(Or(And(a,b), c), Not(d))` (exactly what
the repository's own `test_parse_boolean_variable` asserts), and
`"a||b&&c"` parses as `And(Or(a,b), c)` rather than `Or(a, And(b,c))`. -/
theorem C2_equal_precedence_parse :
    pegParse "a&&b||c&&!d" = some grammarActualAst
    ∧ pegParse "a||b&&c"
      = some (.And (.Or (.BooleanVariable "a") (.BooleanVariable "b"))
          (.BooleanVariable "c")) :=
  ⟨by decide, by decide⟩

/-- C3: from any legal state (never marked while unlocked), every finite
sequence of rule actions applied by the actuator's rule loop — stated
both for the raw action fold and for the full `Actuator::exec` rule loop
with expression evaluation — leaves the state legal: the simulated state
is never `(locked = false, marked = true)`. -/
theorem C3_rule_loop_preserves_legality :
    (∀ (acts : List RuleAction) (a : Artifact),
       (a.marked = true → a.locked = true) →
       ((acts.foldl (fun s act => applyRuleAction act s) a).marked = true →
        (acts.foldl (fun s act => applyRuleAction act s) a).locked = true))
    ∧ (∀ (info : ArtifactInfo) (prec : ℕ) (rules : List RuleExpr)
         (a a2 : Artifact),
       execRules info prec rules a = .ok a2 →
       (a.marked = true → a.locked = true) →
       (a2.marked = true → a2.locked = true)) :=
  ⟨fun acts a h => foldlRuleActions_legal acts a h,
   fun info prec rules a a2 h hleg => execRules_legal info prec rules a a2 h hleg⟩

/-- C3, witness: both parts applied at concrete legal inputs. -/
theorem C3_rule_loop_preserves_legality_witness :
    ((([RuleAction.ClickMark].foldl (fun s act => applyRuleAction act s)
        artifactDemo).marked = true →
      ([RuleAction.ClickMark].foldl (fun s act => applyRuleAction act s)
        artifactDemo).locked = true))
    ∧ ((withToggles artifactDemo true false).marked = true →
       (withToggles artifactDemo true false).locked = true) :=
  ⟨C3_rule_loop_preserves_legality.1 [RuleAction.ClickMark] artifactDemo
     (by decide),
   C3_rule_loop_preserves_legality.2 infoDemo 3 [ruleLockDemo] artifactDemo
     (withToggles artifactDemo true false) (by decide) (by decide)⟩

/-- C4: for every artifact, the actuation engine emits exactly the
minimal click sequence of the matrix — original `(F,F)` to target
`(T,F)`: one lock-control click; `(T,F)` to `(T,T)`: one mark-control
click; `(T,T)` to `(T,F)`: one mark-control click; `(T,F)` to `(F,F)`:
one lock-control click; and zero clicks whenever the original equals the
target, for each legal pair. -/
theorem C4_minimal_click_matrix (info : ArtifactInfo) (prec : ℕ)
    (a : Artifact) :
    actuatorExec info prec [alwaysRule .OnlyLock] (withToggles a false false)
      = .ok .OnlyLock (withToggles a true false) [Click.lock]
    ∧ actuatorExec info prec [alwaysRule .LockAndMark] (withToggles a true false)
      = .ok .LockAndMark (withToggles a true true) [Click.mark]
    ∧ actuatorExec info prec [alwaysRule .OnlyLock] (withToggles a true true)
      = .ok .OnlyLock (withToggles a true false) [Click.mark]
    ∧ actuatorExec info prec [alwaysRule .UnLockAndMark] (withToggles a true false)
      = .ok .UnlockAndUnmark (withToggles a false false) [Click.lock]
    ∧ actuatorExec info prec [] (withToggles a false false)
      = .ok .UnlockAndUnmark (withToggles a false false) []
    ∧ actuatorExec info prec [] (withToggles a true false)
      = .ok .OnlyLock (withToggles a true false) []
    ∧ actuatorExec info prec [] (withToggles a true true)
      = .ok .LockAndMark (withToggles a true true) [] :=
  ⟨rfl, rfl, rfl, rfl, rfl, rfl, rfl⟩

/-- C5: the rule loop visits every rule in compiled order with no
short-circuit — processing a concatenation is processing the two parts in
sequence through the intermediate mutated state — and each rule's
bindings are derived from the item's current, already-mutated state: with
a first rule locking every artifact, a second rule reading the `locked`
variable fires on an initially-unlocked artifact (and the same second
rule alone does not fire on the unmutated state). -/
theorem C5_every_matching_rule_applies :
    (∀ (info : ArtifactInfo) (prec : ℕ) (rs1 rs2 : List RuleExpr)
       (a : Artifact),
       execRules info prec (rs1 ++ rs2) a =
         match execRules info prec rs1 a with
         | .error e => .error e
         | .ok a2 => execRules info prec rs2 a2)
    ∧ execRules infoDemo 3 [ruleLockDemo, ruleWhenLockedDemo] artifactDemo
        = .ok (withToggles artifactDemo true true)
    ∧ execRules infoDemo 3 [ruleWhenLockedDemo] artifactDemo
        = .ok artifactDemo :=
  ⟨fun info prec rs1 rs2 a => execRules_append info prec rs1 rs2 a,
   by decide, by decide⟩

/-- C6, counterexample: a scan whose first planned cell fails the
card-presence check completes with `Ok` — the whole run returns success
after scanning nothing — rather than aborting as a fatal navigation
failure. -/
theorem C6_counterexample :
    scanAllPageRun infoDemo 3 [] envNoCard 4 2 3 = .ok () 0
    ∧ ¬ scanAllPageRun infoDemo 3 [] envNoCard 4 2 3
        = (.navFailed : ScanResult Unit) :=
  ⟨by decide, by decide⟩

/-- C6, amended: a failed card-presence check is the scan's normal
end-of-list detection, not an error: `scan_now_page` reports a non-full
page and `scan_all_page` stops, returning success.  Exhausting
`move_row`'s retry budget, by contrast, is a fatal navigation error. -/
theorem C6_card_check_failure_is_graceful :
    (∀ (info : ArtifactInfo) (prec : ℕ) (rules : List RuleExpr)
       (env : ScanEnv) (pageRowsTotal pageCols iter rowIndex idx fuel : ℕ),
       0 < pageRowsTotal → 0 < pageCols →
       env.cancel idx = false → env.hasCard idx = false →
       scanAllPage info prec rules env pageRowsTotal pageCols (fuel + 1) iter
         rowIndex pageRowsTotal idx = .ok () idx)
    ∧ (∀ (env : MoveRowEnv) (baseline : Rgb),
       (∀ i, env.cancel i = false) →
       (∀ i, 10 < colorDistance baseline (env.color i)) →
       moveRow env baseline = (.retryExceeded, 30)) := by
  constructor
  · intro info prec rules env pageRowsTotal pageCols iter rowIndex idx fuel
      hR hC hcancel hcard
    obtain ⟨k, hk⟩ : ∃ k, pageRowsTotal * pageCols = k + 1 :=
      ⟨pageRowsTotal * pageCols - 1, by
        have := Nat.mul_pos hR hC
        omega⟩
    unfold scanAllPage
    rw [hk]
    simp [scanNowPage, hcancel, hcard]
  · intro env baseline hc hd
    unfold moveRow
    rw [moveRowGo_stuck env baseline hc hd 30 0 0 false]

/-- C6, witness: the amended theorem's two parts at concrete
environments: a first-cell card failure ends the scan with `Ok`, and a
never-settling indicator exhausts the 30-attempt budget with the
navigation error. -/
theorem C6_card_check_failure_is_graceful_witness :
    scanAllPageRun infoDemo 3 [] envNoCard 4 2 3 = .ok () 0
    ∧ moveRow envStuck ⟨255, 255, 255⟩ = (.retryExceeded, 30) :=
  ⟨C6_card_check_failure_is_graceful.1 infoDemo 3 [] envNoCard 4 2 0 0 0 2
     (by decide) (by decide) (by decide) (by decide),
   C6_card_check_failure_is_graceful.2 envStuck ⟨255, 255, 255⟩
     (fun _ => rfl)
     (fun _ => (by decide : (10 : ℤ) < colorDistance ⟨255, 255, 255⟩ ⟨0, 0, 0⟩))⟩

/-- C7: both operands of every numeric comparison are rounded to the
configured number of fractional digits before comparing, identically on
both sides; in particular, at 2-digit precision, `"10/3 == 3.33"`
evaluates to `Boolean(true)` and `"10/3 == 3.334"` also evaluates to
`Boolean(true)`. -/
theorem C7_rounded_comparisons :
    ((pegParse "10/3 == 3.33").map (pexec 2 ExprVar.default)
       = some (.ok (.Boolean true)))
    ∧ ((pegParse "10/3 == 3.334").map (pexec 2 ExprVar.default)
       = some (.ok (.Boolean true)))
    ∧ (∀ (prec : ℕ) (v : ExprVar) (x y : Dec),
        pexec prec v (.Equal (.Number x) (.Number y))
          = .ok (.Boolean (Dec.eqv (Dec.roundDp prec x) (Dec.roundDp prec y))))
    ∧ (∀ (prec : ℕ) (v : ExprVar) (x y : Dec),
        pexec prec v (.NotEqual (.Number x) (.Number y))
          = .ok (.Boolean (!Dec.eqv (Dec.roundDp prec x) (Dec.roundDp prec y))))
    ∧ (∀ (prec : ℕ) (v : ExprVar) (x y : Dec),
        pexec prec v (.LessThan (.Number x) (.Number y))
          = .ok (.Boolean (Dec.lt (Dec.roundDp prec x) (Dec.roundDp prec y))))
    ∧ (∀ (prec : ℕ) (v : ExprVar) (x y : Dec),
        pexec prec v (.GreaterThan (.Number x) (.Number y))
          = .ok (.Boolean (Dec.lt (Dec.roundDp prec y) (Dec.roundDp prec x))))
    ∧ (∀ (prec : ℕ) (v : ExprVar) (x y : Dec),
        pexec prec v (.LessThanEqual (.Number x) (.Number y))
          = .ok (.Boolean (Dec.le (Dec.roundDp prec x) (Dec.roundDp prec y))))
    ∧ (∀ (prec : ℕ) (v : ExprVar) (x y : Dec),
        pexec prec v (.GreaterThanEqual (.Number x) (.Number y))
          = .ok (.Boolean (Dec.le (Dec.roundDp prec y) (Dec.roundDp prec x)))) :=
  ⟨by decide, by decide, fun _ _ _ _ => rfl, fun _ _ _ _ => rfl,
   fun _ _ _ _ => rfl, fun _ _ _ _ => rfl, fun _ _ _ _ => rfl,
   fun _ _ _ _ => rfl⟩

/-- C8: at the failing input `"!xyz"` with an empty declared vocabulary,
the expression parses to `Not(BooleanVariable "xyz")`, `Parser::parse`
accepts it — `check_vars` does not recurse into `Not`, so the undeclared
variable escapes compile-time validation — rule compilation succeeds, and
the undeclared variable is only caught at evaluation time as a
missing-binding error; an undeclared variable outside a `Not` subtree
(`"var>10"`) is, as the claim demands, rejected at compile time with an
error naming it. -/
theorem C8_not_subtree_escapes_validation :
    pegParse "!xyz" = some (.Not (.BooleanVariable "xyz"))
    ∧ parserParse ⟨[], []⟩ "!xyz" = .ok (.Not (.BooleanVariable "xyz"))
    ∧ fromRule ⟨[], []⟩ ⟨"demo", "!xyz", .Lock⟩
      = .ok ⟨⟨"demo", "!xyz", .Lock⟩, .Not (.BooleanVariable "xyz"),
          ⟨["xyz"], []⟩⟩
    ∧ pexec 3 ExprVar.default (.Not (.BooleanVariable "xyz"))
      = .error (.booleanVar "xyz")
    ∧ parserParse ⟨[], []⟩ "var>10"
      = .error (.unsupported (.numberVar "var")) :=
  ⟨by decide, by decide, by decide, by decide, by decide⟩

/-- C9: `move_row` always terminates — it consumes at most 30 scroll
attempts, and its outcome is success, the cooperative-cancellation
result, or the deterministic retry-budget navigation error. -/
theorem C9_move_row_terminates (env : MoveRowEnv) (baseline : Rgb) :
    (moveRow env baseline).2 ≤ 30
    ∧ ((moveRow env baseline).1 = .success
       ∨ (moveRow env baseline).1 = .rightClickExit
       ∨ (moveRow env baseline).1 = .retryExceeded) := by
  constructor
  · simpa using moveRowGo_scrolls_le env baseline 30 0 false 0
  · cases hm : (moveRow env baseline).1 <;> simp

/-- C10: whenever `Identifier::identify` returns an artifact, that
artifact never has `marked = true` together with `locked = false`: the
recognized toggle states are checked and the illegal combination is
rejected with an error before any artifact is built, so the actuator's
input always satisfies the legality invariant. -/
theorem C10_identify_never_marked_unlocked (env : IdentifyEnv) (a : Artifact)
    (h : identify env = .ok (.artifact a)) (hm : a.marked = true) :
    a.locked = true := by
  unfold identify at h
  cases hA : env.isArtifact with
  | false =>
      rw [hA] at h
      simp only [Bool.not_false, if_true] at h
      cases hs : env.stars <;> rw [hs] at h <;> simp_all
  | true =>
      rw [hA] at h
      simp only [Bool.not_true, Bool.false_eq_true, if_false] at h
      repeat' split at h
      all_goals try (exact Except.noConfusion h)
      injection h with h2
      injection h2 with h3
      subst h3
      have hmm : identifyArtifactMarked env = true := hm
      show identifyArtifactLocked env = true
      by_contra hl
      have hl2 : identifyArtifactLocked env = false := by
        cases hlv : identifyArtifactLocked env
        · rfl
        · exact absurd hlv hl
      exact ‹¬(identifyArtifactMarked env && !identifyArtifactLocked env) = true›
        (by rw [hmm, hl2]; rfl)

/-- C10, witness: the theorem applied to a concrete fully-successful
identify environment whose mark and lock pixels both read as set. -/
theorem C10_identify_never_marked_unlocked_witness :
    identify identifyEnvDemo = .ok (.artifact identifiedDemo)
    ∧ identifiedDemo.locked = true :=
  ⟨by decide,
   C10_identify_never_marked_unlocked identifyEnvDemo identifiedDemo
     (by decide) (by decide)⟩
